import Mathlib

/-!
Verification of the DomainTool repository's `DomainList` component
(`src/components/domains/DomainList/index.tsx`).

The component keeps two pieces of UI state: a list of `Domain` records
(name and expiry timestamp) and an optional pagination cursor record
(`Page`).  It fetches pages of expired domains from a GraphQL endpoint
(`getDomains`), maps response edges to `Domain` values (`fetchData`),
and formats expiry instants as relative-time strings (`expiredAt`).

Modelling conventions:
* Instants in time are integers counting milliseconds (as in JavaScript
  `Date` / moment timestamps).  The `expires: expiresAtUtc` field of a
  node is an opaque timestamp; it is modelled directly as the instant it
  denotes.
* `moment().diff(m, unit)` truncates the difference toward zero, which is
  `Int.tdiv` of the millisecond difference by the unit's length.  The
  calendar-aware month/year units of moment are modelled with fixed
  30-day months and 12-month years; every property proved below is
  insensitive to the exact unit lengths beyond `second < minute < hour
  < day < month < year` and positivity, and the concrete test instants
  are expressed in the same units.
* The asynchronous fetch is modelled by passing the outcome of the
  network call (`FetchOutcome`) to the pure state-transition functions:
  `fetchData`, `refresh` and `fetchNext` become functions of the outcome
  and the previous UI state.  A resolved promise whose value carries no
  `data` field makes the component's `then` branch return `undefined`,
  which the `Domain[]` state type cannot represent; those transitions
  produce `none`.
* The GraphQL request itself is external; what the code controls is the
  variable record it sends, modelled by `QueryVariables`.  Dates in the
  expiry window are day-granular (the code formats "today" as
  `YYYY-MM-DD` before subtracting), modelled as integer day numbers.
-/

namespace DomainTool

/-- Milliseconds per second, the length of moment's `seconds` unit. -/
def msPerSecond : Int := 1000

/-- Milliseconds per minute. -/
def msPerMinute : Int := 60 * msPerSecond

/-- Milliseconds per hour. -/
def msPerHour : Int := 60 * msPerMinute

/-- Milliseconds per day. -/
def msPerDay : Int := 24 * msPerHour

/-- Milliseconds per month in the fixed-calendar model (30 days). -/
def msPerMonth : Int := 30 * msPerDay

/-- Milliseconds per year in the fixed-calendar model (12 months). -/
def msPerYear : Int := 12 * msPerMonth

/-- An operator entry of a domain node, as selected by the GraphQL query
(`operators { id address }`). -/
structure Operator where
  id : String
  address : String
deriving DecidableEq, Repr

/-- A domain node as selected by the query in `getDomains`:
`id name level owner operators parentOwner expires: expiresAtUtc`.
`expires` is the expiry instant (milliseconds). -/
structure Node where
  id : String
  name : String
  level : Int
  owner : String
  operators : List Operator
  parentOwner : String
  expires : Int
deriving DecidableEq, Repr

/-- An edge of the GraphQL connection: `edges { node { ... } }`. -/
structure Edge where
  node : Node
deriving DecidableEq, Repr

/-- The `Page` type of the component: the `pageInfo` record
`{ startCursor, endCursor, hasNextPage, hasPreviousPage }`. -/
structure Page where
  startCursor : String
  endCursor : String
  hasNextPage : Bool
  hasPreviousPage : Bool
deriving DecidableEq, Repr

/-- The payload of a successful query: `result.data.domains`, holding the
edge list and the pagination info. -/
structure QueryData where
  edges : List Edge
  pageInfo : Page
deriving DecidableEq, Repr

/-- Outcome of the asynchronous `client.query` call as observed by
`fetchData`'s promise handlers: the promise resolves (`ok`), where the
`result && result.data` guard may still find no data (`ok none`), or it
rejects with an error caught by `catch` (`err`). -/
inductive FetchOutcome where
  | ok (data : Option QueryData)
  | err (e : String)
deriving DecidableEq, Repr

/-- The `Domain` type of the component: `{ name: string; expires: string }`,
with the expiry timestamp modelled as the instant it denotes. -/
structure Domain where
  name : String
  expires : Int
deriving DecidableEq, Repr

/-- The component's UI state: `domains` (initially `[]`) and `pageInfo`
(initially `null`). -/
structure ListState where
  domains : List Domain
  pageInfo : Option Page
deriving DecidableEq, Repr

/-- The GraphQL variables record sent by `getDomains`: `after`, `first`,
the `where` filter (validity, `level: { equalTo }`, `expiresAtUtc:
{ greaterThan, lessThan }`) and the `order` clause. -/
structure QueryVariables where
  after : Option String
  first : Int
  whereValidity : String
  whereLevelEqualTo : Int
  whereExpiresGreaterThan : Int
  whereExpiresLessThan : Int
  orderField : String
  orderDirection : String
deriving DecidableEq, Repr

/-- `getDomains(startDate, endDate, after?)`: the variables of the query
it issues.  `startDate`/`endDate` are day numbers. -/
def getDomains (startDate endDate : Int) (after : Option String) : QueryVariables :=
  { after := after
    first := 50
    whereValidity := "EXPIRED"
    whereLevelEqualTo := 2
    whereExpiresGreaterThan := startDate
    whereExpiresLessThan := endDate
    orderField := "EXPIRES_AT"
    orderDirection := "DESC" }

/-- The request issued by `fetchData(after)`: it computes `today`,
`startDate = today - 7 days`, `endDate = today - 5 days` and calls
`getDomains(startDate, endDate, after)`.  `today` is a day number. -/
def fetchRequest (today : Int) (after : Option String) : QueryVariables :=
  getDomains (today - 7) (today - 5) after

/-- The edge-to-`Domain` mapping inside `fetchData`'s `then` branch:
`result.data.domains.edges.map(i => ({ name: i.node.name, expires: i.node.expires }))`. -/
def mapEdges (edges : List Edge) : List Domain :=
  edges.map fun i => { name := i.node.name, expires := i.node.expires }

/-- The state effect of one `fetchData` call, as a function of the network
outcome and the current `pageInfo` state (the only state `fetchData`
touches).  Returns the value the promise resolves with (`none` models the
`undefined` produced when `result && result.data` fails) together with the
new `pageInfo`:
* success with data: `setPageInfo(result.data.domains.pageInfo)` and the
  mapped domain list is returned;
* success without data: nothing is set and `undefined` is returned;
* rejection: the error is logged and `[]` is returned, `pageInfo` untouched. -/
def fetchData (outcome : FetchOutcome) (pageInfo : Option Page) :
    Option (List Domain) × Option Page :=
  match outcome with
  | .ok (some data) => (some (mapEdges data.edges), some data.pageInfo)
  | .ok none => (none, pageInfo)
  | .err _ => (some [], pageInfo)

/-- `refresh`: `fetchData(undefined)` then `setDomains(domains)` — the
whole list is replaced by the fetched one.  Returns `none` when the fetch
resolved without data (the `Domain[]` state would become `undefined`). -/
def refresh (outcome : FetchOutcome) (s : ListState) : Option ListState :=
  match fetchData outcome s.pageInfo with
  | (some items, pageInfo) => some { domains := items, pageInfo := pageInfo }
  | (none, _) => none

/-- The request issued by `refresh`: `fetchData(undefined)`, i.e. no
`after` cursor. -/
def refreshRequest (today : Int) : QueryVariables :=
  fetchRequest today none

/-- `fetchNext`: only if `pageInfo && pageInfo.hasNextPage` does it call
`fetchData(pageInfo.endCursor)` and append the items
(`setDomains([...domains, ...items])`); otherwise it does nothing.
Spreading an `undefined` item list throws, modelled as `none`. -/
def fetchNext (outcome : FetchOutcome) (s : ListState) : Option ListState :=
  match s.pageInfo with
  | some pi =>
    if pi.hasNextPage then
      match fetchData outcome s.pageInfo with
      | (some items, pageInfo) =>
        some { domains := s.domains ++ items, pageInfo := pageInfo }
      | (none, _) => none
    else some s
  | none => some s

/-- The request issued by `fetchNext`, when it issues one: the guard
`pageInfo && pageInfo.hasNextPage` must hold and the `after` argument is
`pageInfo.endCursor`. -/
def fetchNextRequest (today : Int) (s : ListState) : Option QueryVariables :=
  match s.pageInfo with
  | some pi =>
    if pi.hasNextPage then some (fetchRequest today (some pi.endCursor))
    else none
  | none => none

/-- `expiredAt(expires)`: the relative-time formatter.  Each
`moment().diff(moment(expires), unit)` is the truncated-toward-zero
quotient of `now - expires` by the unit length; the branch structure and
result strings mirror the source, including the `years`-branch string
that says "months". -/
def expiredAt (now expires : Int) : String :=
  let years := Int.tdiv (now - expires) msPerYear
  if years ≥ 1 then s!"expired {years} months ago"
  else
    let months := Int.tdiv (now - expires) msPerMonth
    if months ≥ 1 then s!"expired {months} months ago"
    else
      let days := Int.tdiv (now - expires) msPerDay
      if days ≥ 1 then s!"expired {days} days ago"
      else
        let hours := Int.tdiv (now - expires) msPerHour
        if hours ≥ 1 then s!"expired {hours} hours ago"
        else
          let minutes := Int.tdiv (now - expires) msPerMinute
          if minutes ≥ 1 then s!"expired {minutes} minutes ago"
          else
            let seconds := Int.tdiv (now - expires) msPerSecond
            if seconds ≥ 1 then s!"expired {seconds} seconds ago"
            else "expired just now"

/-- The unit lengths checked by `expiredAt`, from finest (1 = seconds) to
coarsest (6 = years); index 0 stands for the "just now" fallback. -/
def unitMs : Nat → Int
  | 1 => msPerSecond
  | 2 => msPerMinute
  | 3 => msPerHour
  | 4 => msPerDay
  | 5 => msPerMonth
  | 6 => msPerYear
  | _ => 1

/-- The index of the branch `expiredAt` takes: the same descending
threshold checks as `expiredAt`, returning which unit's bucket is
selected (6 = years down to 1 = seconds, 0 = "just now"). -/
def selectedBucket (now expires : Int) : Nat :=
  if Int.tdiv (now - expires) msPerYear ≥ 1 then 6
  else if Int.tdiv (now - expires) msPerMonth ≥ 1 then 5
  else if Int.tdiv (now - expires) msPerDay ≥ 1 then 4
  else if Int.tdiv (now - expires) msPerHour ≥ 1 then 3
  else if Int.tdiv (now - expires) msPerMinute ≥ 1 then 2
  else if Int.tdiv (now - expires) msPerSecond ≥ 1 then 1
  else 0

/-- The string each branch of `expiredAt` renders, given the selected
bucket and the age `now - expires`. -/
def render (bucket : Nat) (age : Int) : String :=
  match bucket with
  | 6 => let n := Int.tdiv age msPerYear; s!"expired {n} months ago"
  | 5 => let n := Int.tdiv age msPerMonth; s!"expired {n} months ago"
  | 4 => let n := Int.tdiv age msPerDay; s!"expired {n} days ago"
  | 3 => let n := Int.tdiv age msPerHour; s!"expired {n} hours ago"
  | 2 => let n := Int.tdiv age msPerMinute; s!"expired {n} minutes ago"
  | 1 => let n := Int.tdiv age msPerSecond; s!"expired {n} seconds ago"
  | _ => "expired just now"

/-! Helper lemmas about the unit lengths and truncated division. -/

/-- The seconds unit is positive. -/
lemma msPerSecond_pos : (0 : Int) < msPerSecond := by decide

/-- The minutes unit is positive. -/
lemma msPerMinute_pos : (0 : Int) < msPerMinute := by decide

/-- The hours unit is positive. -/
lemma msPerHour_pos : (0 : Int) < msPerHour := by decide

/-- The days unit is positive. -/
lemma msPerDay_pos : (0 : Int) < msPerDay := by decide

/-- The months unit is positive. -/
lemma msPerMonth_pos : (0 : Int) < msPerMonth := by decide

/-- The years unit is positive. -/
lemma msPerYear_pos : (0 : Int) < msPerYear := by decide

/-- The unit lengths increase from seconds to years. -/
lemma units_chain :
    msPerSecond ≤ msPerMinute ∧ msPerMinute ≤ msPerHour ∧
    msPerHour ≤ msPerDay ∧ msPerDay ≤ msPerMonth ∧
    msPerMonth ≤ msPerYear := by decide

/-- A truncated-toward-zero quotient reaches 1 exactly when the dividend
reaches the (positive) divisor: the threshold check `diff(unit) >= 1` of
the formatter is the comparison `unit ≤ age`. -/
lemma one_le_tdiv_iff {b : Int} (hb : 0 < b) {a : Int} :
    1 ≤ Int.tdiv a b ↔ b ≤ a := by
  constructor
  · intro h
    by_contra hab
    push_neg at hab
    rcases le_or_lt 0 a with ha | ha
    · rw [Int.tdiv_eq_ediv ha hb.le] at h
      have := (Int.le_ediv_iff_mul_le hb).mp h
      omega
    · have hneg : 0 ≤ Int.tdiv (-a) b := Int.tdiv_nonneg (by omega) hb.le
      rw [Int.neg_tdiv] at hneg
      omega
  · intro h
    have ha : 0 ≤ a := le_trans hb.le h
    rw [Int.tdiv_eq_ediv ha hb.le]
    exact (Int.le_ediv_iff_mul_le hb).mpr (by omega)

/-- `expiredAt` renders exactly the branch `selectedBucket` selects. -/
lemma expiredAt_eq_render (now expires : Int) :
    expiredAt now expires = render (selectedBucket now expires) (now - expires) := by
  simp only [expiredAt, selectedBucket]
  split_ifs <;> rfl

/-- `selectedBucket` written as direct threshold comparisons on the age. -/
lemma selectedBucket_eq_thresholds (now expires : Int) :
    selectedBucket now expires =
      if msPerYear ≤ now - expires then 6
      else if msPerMonth ≤ now - expires then 5
      else if msPerDay ≤ now - expires then 4
      else if msPerHour ≤ now - expires then 3
      else if msPerMinute ≤ now - expires then 2
      else if msPerSecond ≤ now - expires then 1
      else 0 := by
  unfold selectedBucket
  simp only [ge_iff_le, one_le_tdiv_iff msPerYear_pos,
    one_le_tdiv_iff msPerMonth_pos, one_le_tdiv_iff msPerDay_pos,
    one_le_tdiv_iff msPerHour_pos, one_le_tdiv_iff msPerMinute_pos,
    one_le_tdiv_iff msPerSecond_pos]

/-- An older expiry instant (larger age) never selects a finer bucket. -/
lemma selectedBucket_mono (now e e' : Int) (h : e' ≤ e) :
    selectedBucket now e ≤ selectedBucket now e' := by
  rw [selectedBucket_eq_thresholds, selectedBucket_eq_thresholds]
  have hc := units_chain
  obtain ⟨c1, c2, c3, c4, c5⟩ := hc
  have hage : now - e ≤ now - e' := by omega
  split_ifs <;> omega

/-- When a bucket other than "just now" is selected, its unit's elapsed
count is at least 1. -/
lemma selectedBucket_count_ge_one (now expires : Int)
    (h : 1 ≤ selectedBucket now expires) :
    1 ≤ Int.tdiv (now - expires) (unitMs (selectedBucket now expires)) := by
  unfold selectedBucket at h ⊢
  split_ifs at h ⊢ with h6 h5 h4 h3 h2 h1 <;>
    simp only [unitMs] <;> omega

/-- Every unit coarser than the selected bucket has elapsed count below 1:
the selected bucket is the coarsest unit whose count reaches 1. -/
lemma selectedBucket_coarsest (now expires : Int) (k : Nat)
    (hk : selectedBucket now expires < k) (hk6 : k ≤ 6) :
    Int.tdiv (now - expires) (unitMs k) < 1 := by
  unfold selectedBucket at hk
  split_ifs at hk with h6 h5 h4 h3 h2 h1 <;>
    interval_cases k <;> simp only [unitMs] <;> omega

/-! Claim theorems about the relative-time formatter. -/

/-- C4: `expiredAt` selects the coarsest unit whose elapsed count is at
least 1, by descending threshold checks (rendering the branch given by
`selectedBucket`, which carries a count of at least 1 while every coarser
unit's count is below 1), it is monotonic with input age, and at ages of
30 seconds, 10 minutes, 5 hours, 3 days, 2 months and 13 months it
selects the seconds, minutes, hours, days, months and years buckets
respectively. -/
theorem expiredAt_bucket_selection (now : Int) :
    (∀ expires, expiredAt now expires = render (selectedBucket now expires) (now - expires))
    ∧ (∀ expires, 1 ≤ selectedBucket now expires →
        1 ≤ Int.tdiv (now - expires) (unitMs (selectedBucket now expires)))
    ∧ (∀ expires k, selectedBucket now expires < k → k ≤ 6 →
        Int.tdiv (now - expires) (unitMs k) < 1)
    ∧ (∀ e e', e' ≤ e → selectedBucket now e ≤ selectedBucket now e')
    ∧ selectedBucket now (now - 30 * msPerSecond) = 1
    ∧ selectedBucket now (now - 10 * msPerMinute) = 2
    ∧ selectedBucket now (now - 5 * msPerHour) = 3
    ∧ selectedBucket now (now - 3 * msPerDay) = 4
    ∧ selectedBucket now (now - 2 * msPerMonth) = 5
    ∧ selectedBucket now (now - 13 * msPerMonth) = 6 := by
  refine ⟨expiredAt_eq_render now, selectedBucket_count_ge_one now,
    selectedBucket_coarsest now, selectedBucket_mono now, ?_, ?_, ?_, ?_, ?_, ?_⟩ <;>
    · rw [selectedBucket_eq_thresholds, sub_sub_cancel]
      decide

/-- Witness for C4: the monotonicity and coarsest-unit parts at concrete
instants (a 2-month-old expiry selects at least as coarse a bucket as a
3-day-old one; at age 5 hours the day count is below 1). -/
theorem expiredAt_bucket_selection_witness :
    selectedBucket 0 (0 - 3 * msPerDay) ≤ selectedBucket 0 (0 - 2 * msPerMonth)
    ∧ Int.tdiv (0 - (0 - 5 * msPerHour)) (unitMs 4) < 1 :=
  ⟨(expiredAt_bucket_selection 0).2.2.2.1 (0 - 3 * msPerDay) (0 - 2 * msPerMonth)
      (by decide),
   (expiredAt_bucket_selection 0).2.2.1 (0 - 5 * msPerHour) 4 (by decide) (by decide)⟩

/-- C6: for every expiry at least one year old, `expiredAt` reports the
whole-year count but labels it "months": the years branch mislabels the
unit. -/
theorem expiredAt_year_branch_mislabeled (now expires : Int)
    (h : msPerYear ≤ now - expires) :
    expiredAt now expires =
      "expired " ++ toString (Int.tdiv (now - expires) msPerYear) ++ " months ago" := by
  have h1 : 1 ≤ Int.tdiv (now - expires) msPerYear :=
    (one_le_tdiv_iff msPerYear_pos).mpr h
  simp only [expiredAt, ge_iff_le, if_pos h1]
  rfl

/-- Witness for C6: an expiry 13 months old (one whole year) renders as
"expired 1 months ago". -/
theorem expiredAt_year_branch_mislabeled_witness :
    expiredAt (13 * msPerMonth) 0 = "expired 1 months ago" := by
  rw [expiredAt_year_branch_mislabeled (13 * msPerMonth) 0 (by decide)]
  rfl

/-- C9: `expiredAt` returns a string on every input, and whenever the age
is below one second (in particular for an expiry equal to `now` or in the
future) every threshold check fails and it returns "expired just now". -/
theorem expiredAt_total_just_now (now expires : Int) :
    (∃ out, expiredAt now expires = out)
    ∧ (now - expires < msPerSecond → expiredAt now expires = "expired just now") := by
  obtain ⟨c1, c2, c3, c4, c5⟩ := units_chain
  refine ⟨⟨expiredAt now expires, rfl⟩, fun h => ?_⟩
  have hs : ¬ 1 ≤ Int.tdiv (now - expires) msPerSecond := by
    rw [one_le_tdiv_iff msPerSecond_pos]; omega
  have hmin : ¬ 1 ≤ Int.tdiv (now - expires) msPerMinute := by
    rw [one_le_tdiv_iff msPerMinute_pos]; omega
  have hh : ¬ 1 ≤ Int.tdiv (now - expires) msPerHour := by
    rw [one_le_tdiv_iff msPerHour_pos]; omega
  have hd : ¬ 1 ≤ Int.tdiv (now - expires) msPerDay := by
    rw [one_le_tdiv_iff msPerDay_pos]; omega
  have hmo : ¬ 1 ≤ Int.tdiv (now - expires) msPerMonth := by
    rw [one_le_tdiv_iff msPerMonth_pos]; omega
  have hy : ¬ 1 ≤ Int.tdiv (now - expires) msPerYear := by
    rw [one_le_tdiv_iff msPerYear_pos]; omega
  simp only [expiredAt, ge_iff_le, if_neg hy, if_neg hmo, if_neg hd,
    if_neg hh, if_neg hmin, if_neg hs]

/-- Witness for C9: an expiry exactly at `now` and one half a second in
the future both render "expired just now". -/
theorem expiredAt_total_just_now_witness :
    expiredAt 0 0 = "expired just now" ∧ expiredAt 0 500 = "expired just now" :=
  ⟨(expiredAt_total_just_now 0 0).2 (by decide),
   (expiredAt_total_just_now 0 500).2 (by decide)⟩

/-! Claim theorems about fetching, mapping and pagination. -/

/-- A sample one-edge query response used by concrete witnesses. -/
def sampleNode : Node :=
  { id := "id0", name := "name0.tez", level := 2, owner := "owner0",
    operators := [], parentOwner := "parent0", expires := 42 }

/-- A sample pagination record used by concrete witnesses. -/
def samplePage : Page :=
  { startCursor := "start0", endCursor := "end0",
    hasNextPage := true, hasPreviousPage := false }

/-- A sample query payload used by concrete witnesses. -/
def sampleData : QueryData :=
  { edges := [{ node := sampleNode }], pageInfo := samplePage }

/-- C2: on a successful response, `fetchData` returns the mapped list,
whose length equals the number of edges and whose entry at each position
carries the `name` and `expires` of the node of the edge at the same
position — the server-provided order is preserved. -/
theorem fetchData_maps_response (data : QueryData) (pageInfo : Option Page) :
    fetchData (.ok (some data)) pageInfo = (some (mapEdges data.edges), some data.pageInfo)
    ∧ (mapEdges data.edges).length = data.edges.length
    ∧ (∀ i (h : i < data.edges.length),
        (mapEdges data.edges).get ⟨i, by simpa [mapEdges] using h⟩ =
          { name := (data.edges.get ⟨i, h⟩).node.name,
            expires := (data.edges.get ⟨i, h⟩).node.expires }) := by
  refine ⟨rfl, by simp [mapEdges], ?_⟩
  intro i h
  simp [mapEdges, List.get_eq_getElem, List.getElem_map]

/-- Witness for C2: the single mapped entry of the sample response equals
the sample node's name and expiry. -/
theorem fetchData_maps_response_witness :
    (mapEdges sampleData.edges).get ⟨0, by simp [sampleData, samplePage, mapEdges]⟩ =
      { name := (sampleData.edges.get ⟨0, by simp [sampleData, samplePage]⟩).node.name,
        expires := (sampleData.edges.get ⟨0, by simp [sampleData, samplePage]⟩).node.expires } :=
  (fetchData_maps_response sampleData none).2.2 0 (by simp [sampleData, samplePage])

/-- C3: a rejected query is caught: `fetchData` resolves with the empty
list (no exception propagates) and `refresh` after a failed fetch leaves
the domains state empty. -/
theorem fetch_error_caught (e : String) (pageInfo : Option Page) (s : ListState) :
    fetchData (.err e) pageInfo = (some [], pageInfo)
    ∧ refresh (.err e) s = some { domains := [], pageInfo := s.pageInfo } :=
  ⟨rfl, rfl⟩

/-- C1: when `pageInfo` is absent or `hasNextPage` is false, `fetchNext`
leaves the whole state unchanged; when `hasNextPage` is true, whatever
state a fetch produces has the old domains list as a prefix (the fetched
items are appended), and on a successful response the appended items are
exactly the mapped edges. -/
theorem fetchNext_pagination (outcome : FetchOutcome) (s : ListState) :
    ((s.pageInfo = none ∨ ∃ pi, s.pageInfo = some pi ∧ pi.hasNextPage = false) →
      fetchNext outcome s = some s)
    ∧ (∀ pi, s.pageInfo = some pi → pi.hasNextPage = true →
        ∀ s', fetchNext outcome s = some s' →
          ∃ fetched, s'.domains = s.domains ++ fetched)
    ∧ (∀ pi data, s.pageInfo = some pi → pi.hasNextPage = true →
        outcome = FetchOutcome.ok (some data) →
        fetchNext outcome s =
          some { domains := s.domains ++ mapEdges data.edges,
                 pageInfo := some data.pageInfo }) := by
  refine ⟨?_, ?_, ?_⟩
  · rintro (hnone | ⟨pi, hpi, hfalse⟩)
    · simp [fetchNext, hnone]
    · simp [fetchNext, hpi, hfalse]
  · intro pi hpi htrue s' hs'
    cases outcome with
    | ok data =>
      cases data with
      | some d =>
        simp [fetchNext, hpi, htrue, fetchData] at hs'
        exact ⟨mapEdges d.edges, by rw [← hs']⟩
      | none => simp [fetchNext, hpi, htrue, fetchData] at hs'
    | err e =>
      simp [fetchNext, hpi, htrue, fetchData] at hs'
      exact ⟨[], by rw [← hs']; simp⟩
  · intro pi data hpi htrue hout
    subst hout
    simp [fetchNext, hpi, htrue, fetchData]

/-- Witness for C1: with no pagination info `fetchNext` is a no-op, and
with `hasNextPage` set the sample fetch appends the mapped sample edge. -/
theorem fetchNext_pagination_witness :
    fetchNext (.err "boom") { domains := [], pageInfo := none } =
      some { domains := [], pageInfo := none }
    ∧ fetchNext (.ok (some sampleData)) { domains := [], pageInfo := some samplePage } =
        some { domains := [] ++ mapEdges sampleData.edges,
               pageInfo := some sampleData.pageInfo } :=
  ⟨(fetchNext_pagination (.err "boom") { domains := [], pageInfo := none }).1
      (Or.inl rfl),
   (fetchNext_pagination (.ok (some sampleData))
        { domains := [], pageInfo := some samplePage }).2.2 samplePage sampleData
      rfl rfl rfl⟩

/-- C5: every issued query filters on validity EXPIRED, name level equal
to 2 and an expiry window strictly between today minus 7 days and today
minus 5 days, orders by EXPIRES_AT descending, asks for 50 items, carries
no cursor on a refresh, and carries the previous page's end-cursor as
`after` when paginating. -/
theorem query_parameters (today : Int) (after : Option String) :
    (fetchRequest today after).whereValidity = "EXPIRED"
    ∧ (fetchRequest today after).whereLevelEqualTo = 2
    ∧ (fetchRequest today after).whereExpiresGreaterThan = today - 7
    ∧ (fetchRequest today after).whereExpiresLessThan = today - 5
    ∧ (fetchRequest today after).orderField = "EXPIRES_AT"
    ∧ (fetchRequest today after).orderDirection = "DESC"
    ∧ (fetchRequest today after).first = 50
    ∧ (fetchRequest today after).after = after
    ∧ refreshRequest today = fetchRequest today none
    ∧ (∀ (s : ListState) pi, s.pageInfo = some pi → pi.hasNextPage = true →
        fetchNextRequest today s = some (fetchRequest today (some pi.endCursor))) := by
  refine ⟨rfl, rfl, rfl, rfl, rfl, rfl, rfl, rfl, rfl, ?_⟩
  intro s pi hpi htrue
  simp [fetchNextRequest, hpi, htrue]

/-- Witness for C5: paginating from the sample page sends its end-cursor. -/
theorem query_parameters_witness :
    fetchNextRequest 0 { domains := [], pageInfo := some samplePage } =
      some (fetchRequest 0 (some samplePage.endCursor)) :=
  (query_parameters 0 none).2.2.2.2.2.2.2.2.2
    { domains := [], pageInfo := some samplePage } samplePage rfl rfl

/-- C7: a fetch that yields a response replaces the cursor state
wholesale with the response's `pageInfo`, independently of every field of
the old cursor state, and the cursor state is consulted only through
`hasNextPage` (whether to request) and `endCursor` (how to request). -/
theorem pageInfo_wholesale_replacement (data : QueryData) (old : Option Page) :
    (fetchData (.ok (some data)) old).2 = some data.pageInfo
    ∧ (∀ old', (fetchData (.ok (some data)) old).2 = (fetchData (.ok (some data)) old').2)
    ∧ (∀ today (s s' : ListState) pi pi',
        s.pageInfo = some pi → s'.pageInfo = some pi' →
        pi.hasNextPage = pi'.hasNextPage → pi.endCursor = pi'.endCursor →
        fetchNextRequest today s = fetchNextRequest today s') := by
  refine ⟨rfl, fun _ => rfl, ?_⟩
  intro today s s' pi pi' hpi hpi' hnext hcur
  simp [fetchNextRequest, hpi, hpi', hnext, hcur]

/-- Witness for C7: two cursor states differing only in `startCursor` and
`hasPreviousPage` produce the same next-page request. -/
theorem pageInfo_wholesale_replacement_witness :
    fetchNextRequest 0 { domains := [], pageInfo := some samplePage } =
      fetchNextRequest 0
        { domains := [],
          pageInfo := some { startCursor := "other", endCursor := "end0",
                             hasNextPage := true, hasPreviousPage := true } } :=
  (pageInfo_wholesale_replacement sampleData none).2.2 0
    { domains := [], pageInfo := some samplePage }
    { domains := [],
      pageInfo := some { startCursor := "other", endCursor := "end0",
                         hasNextPage := true, hasPreviousPage := true } }
    samplePage
    { startCursor := "other", endCursor := "end0",
      hasNextPage := true, hasPreviousPage := true }
    rfl rfl rfl rfl

/-- C8: a failed fetch is atomic with respect to cursor state: the catch
branch of `fetchData` hands back the old `pageInfo`, and neither
`refresh` nor `fetchNext` changes the cursor state on a failed fetch. -/
theorem error_atomic_cursor (e : String) (pageInfo : Option Page) (s : ListState) :
    (fetchData (.err e) pageInfo).2 = pageInfo
    ∧ (∀ s', refresh (.err e) s = some s' → s'.pageInfo = s.pageInfo)
    ∧ (∀ s', fetchNext (.err e) s = some s' → s'.pageInfo = s.pageInfo) := by
  refine ⟨rfl, ?_, ?_⟩
  · intro s' h
    simp only [refresh, fetchData] at h
    cases h
    rfl
  · intro s' h
    cases hpi : s.pageInfo with
    | none =>
      simp [fetchNext, hpi] at h
      rw [← h, hpi]
    | some pi =>
      by_cases hn : pi.hasNextPage
      · simp [fetchNext, hpi, hn, fetchData] at h
        rw [← h]
      · simp [fetchNext, hpi, hn] at h
        rw [← h, hpi]

/-- Witness for C8: a failed paginating fetch from the sample state keeps
its cursor record. -/
theorem error_atomic_cursor_witness :
    ListState.pageInfo { domains := [], pageInfo := some samplePage } =
      some samplePage :=
  (error_atomic_cursor "boom" none
      { domains := [], pageInfo := some samplePage }).2.2
    { domains := [] ++ [], pageInfo := some samplePage } rfl

/-- C10: `refresh` replaces the entire domains list with the mapped
result of the fresh response, independently of the previous state; the
refresh request carries no `after` cursor; and for a fixed outcome,
running `refresh` twice yields the same state as running it once. -/
theorem refresh_wholesale_idempotent :
    (∀ (data : QueryData) (s : ListState),
        refresh (.ok (some data)) s =
          some { domains := mapEdges data.edges, pageInfo := some data.pageInfo })
    ∧ (∀ today, refreshRequest today = fetchRequest today none)
    ∧ (∀ (outcome : FetchOutcome) (s : ListState),
        (refresh outcome s).bind (refresh outcome) = refresh outcome s) := by
  refine ⟨fun data s => rfl, fun today => rfl, ?_⟩
  intro outcome s
  cases outcome with
  | ok data =>
    cases data with
    | some d => rfl
    | none => rfl
  | err e => rfl

end DomainTool
